import Mathlib

set_option autoImplicit false

namespace AutoCRM

/-!
Shallow embedding of the AI-suggestion lifecycle engine of the AutoCRM
repository: the edit-distance metric, the change-feed reconciler acting on
the local suggestion store, and the feedback-recording operation with its
remote mutations and trace output.
-/

/-! ### EditDistanceMetric (calculateEditDistance) -/

/--
Inner column recursion of the dynamic-programming table of
`calculateEditDistance`.  `dpGo s1 s2 i prev j` is the table cell
`dp[i+1][j]` of the source, where `prev` is row `i` of the table.
The source fills `dp[i][j]` with: `j` when `i = 0`, `i` when `j = 0`,
`dp[i-1][j-1]` when `str1[i-1] === str2[j-1]`, and otherwise
`1 + min(dp[i-1][j], dp[i][j-1], dp[i-1][j-1])`.
-/
def dpGo (s1 s2 : List Char) (i : Nat) (prev : Nat → Nat) : Nat → Nat
  | 0 => i + 1
  | j + 1 =>
    if s1.get? i = s2.get? j then prev j
    else 1 + min (prev (j + 1)) (min (dpGo s1 s2 i prev j) (prev j))

/-- Cell `dp[i][j]` of the dynamic-programming table of `calculateEditDistance`. -/
def dpCell (s1 s2 : List Char) : Nat → Nat → Nat
  | 0 => fun j => j
  | i + 1 => dpGo s1 s2 i (dpCell s1 s2 i)

/-- The edit-distance function of the source: the bottom-right cell
`dp[m][n]` of the dynamic-programming table over the two strings. -/
def calculateEditDistance (str1 str2 : String) : Nat :=
  dpCell str1.data str2.data str1.length str2.length

/-- Reference Levenshtein recurrence on lists of characters,
recursing on the heads. -/
def levGo (x : Char) (xs : List Char) (levxs : List Char → Nat) : List Char → Nat
  | [] => xs.length + 1
  | y :: ys =>
    if x = y then levxs ys
    else 1 + min (levxs (y :: ys)) (min (levGo x xs levxs ys) (levxs ys))

/-- Levenshtein distance between two lists of characters (head recursion). -/
def lev : List Char → List Char → Nat
  | [], ys => ys.length
  | x :: xs, ys => levGo x xs (lev xs) ys

/--
`Edits n xs ys` holds when `xs` can be transformed into `ys` using exactly
`n` single-character edit operations (insert, delete, substitute), keeping
matching characters for free.
-/
inductive Edits : Nat → List Char → List Char → Prop where
  | nil : Edits 0 [] []
  | keep {n xs ys} (c : Char) : Edits n xs ys → Edits n (c :: xs) (c :: ys)
  | subst {n xs ys} (a b : Char) : Edits n xs ys → Edits (n + 1) (a :: xs) (b :: ys)
  | del {n xs ys} (a : Char) : Edits n xs ys → Edits (n + 1) (a :: xs) ys
  | ins {n xs ys} (b : Char) : Edits n xs ys → Edits (n + 1) xs (b :: ys)

/-! ### Data model -/

/-- Persisted status of a suggestion (`ai_suggestions.status`). -/
inductive SuggestionStatus where
  | pending
  | accepted
  | rejected
  deriving DecidableEq

/-- Metadata attached to a suggestion row (`suggestion.metadata` in the
source): trace identifier, model name, token usage total. -/
structure SuggestionMetadata where
  trace_id : Option String
  model : Option String
  tokens_total : Option Nat
  deriving DecidableEq

/-- A suggestion record as read from the `ai_suggestions` table.
Timestamps are modelled as epoch milliseconds. -/
structure AIMessageSuggestion where
  id : String
  ticket_id : String
  suggested_response : String
  status : SuggestionStatus
  metadata : Option SuggestionMetadata
  created_at : Nat
  updated_at : Nat
  deriving DecidableEq

/-- Transient fetch status of a locally mirrored suggestion. -/
inductive FetchStatus where
  | loading
  | success
  | error
  deriving DecidableEq

/-- Local presentation wrapper held in the `suggestions` state array. -/
structure SuggestionState where
  suggestion : AIMessageSuggestion
  status : FetchStatus
  error : Option String
  deriving DecidableEq

/-- A message of a ticket's conversation history. -/
structure TicketMessage where
  id : String
  content : String
  is_ai_generated : Bool
  created_at : Nat
  deriving DecidableEq

/-- A ticket row joined with its messages, as fetched by `storeFeedback`. -/
structure Ticket where
  id : String
  title : String
  description : String
  priority : String
  messages : List TicketMessage
  deriving DecidableEq

/-- Feedback type of a feedback submission. -/
inductive FeedbackType where
  | approval
  | rejection
  | revision
  deriving DecidableEq

/-- Metadata of a feedback submission (`feedback.metadata`): an optional
free-text addition and the partial-use flag read by the trace output. -/
structure FeedbackMetadata where
  additional_feedback : Option String
  partUse : Bool
  deriving DecidableEq

/-- A feedback submission (the `AIFeedback` argument of `storeFeedback`). -/
structure AIFeedback where
  suggestion_id : String
  ticket_id : String
  feedback_type : FeedbackType
  feedback_reason : Option String
  agent_response : Option String
  metadata : Option FeedbackMetadata
  updated_at : Nat
  deriving DecidableEq

/-! ### Change-feed reconciler (the subscription handler of useAISuggestions) -/

/-- INSERT branch of the change-feed handler: discard the event when a
suggestion with the same identifier already exists, otherwise append the
record with fetch status success. -/
def applyInsert (store : List SuggestionState) (newSuggestion : AIMessageSuggestion) :
    List SuggestionState :=
  if store.any fun s => s.suggestion.id = newSuggestion.id then store
  else store ++ [{ suggestion := newSuggestion, status := .success, error := none }]

/-- DELETE branch of the change-feed handler: drop entries whose id matches. -/
def applyDelete (store : List SuggestionState) (oldId : String) :
    List SuggestionState :=
  store.filter fun s => s.suggestion.id ≠ oldId

/-- UPDATE branch of the change-feed handler: when the incoming record's
status is accepted or rejected, remove the id from the store; otherwise map
over the store, replacing the suggestion of the entry whose id matches. -/
def applyUpdate (store : List SuggestionState) (updatedSuggestion : AIMessageSuggestion) :
    List SuggestionState :=
  if updatedSuggestion.status = .accepted ∨ updatedSuggestion.status = .rejected then
    store.filter fun s => s.suggestion.id ≠ updatedSuggestion.id
  else
    store.map fun s =>
      if s.suggestion.id = updatedSuggestion.id then { s with suggestion := updatedSuggestion }
      else s

/-! ### storeFeedback -/

/-- JavaScript `x || null` applied to an optional string: empty or absent
strings collapse to null. -/
def jsOrNull : Option String → Option String
  | none => none
  | some s => if s = "" then none else some s

/-- Metadata stored on an inserted feedback event: the submission's
metadata spread together with the feedback trace identifier. -/
structure EventMetadata where
  base : Option FeedbackMetadata
  trace_id : String
  deriving DecidableEq

/-- A row inserted into `ai_feedback_events`. -/
structure FeedbackEventRow where
  suggestion_id : String
  ticket_id : String
  agent_id : String
  feedback_type : FeedbackType
  feedback_reason : Option String
  agent_response : Option String
  time_to_feedback : String
  metadata : EventMetadata
  created_at : Nat
  updated_at : Nat
  deriving DecidableEq

/-- Remote writes performed by `storeFeedback`, in order. -/
inductive RemoteMutation where
  | statusUpdate (id : String) (newStatus : SuggestionStatus) (updated_at : Nat)
  | feedbackInsert (row : FeedbackEventRow)
  deriving DecidableEq

/-- The errors `storeFeedback` can raise, in control-flow order. -/
inductive FeedbackError where
  | noUserId
  | suggestionNotFound
  | ticketNotFound
  | statusUpdateFailed (e : String)
  | feedbackInsertFailed (e : String)
  deriving DecidableEq

/-- Metrics block of the final trace output. -/
structure TraceMetrics where
  time_to_feedback_ms : Int
  was_edited : Bool
  partUse : Bool
  quality_score : Nat
  deriving DecidableEq

/-- The fields of the final trace update's output payload. -/
structure TraceOutput where
  processing_time_ms : Int
  metrics : TraceMetrics
  new_status : SuggestionStatus
  edit_distance : Option Nat
  response_length : Nat
  response_tokens : Nat
  total_interaction_time_ms : Int
  deriving DecidableEq

/-- Outcomes of the remote collaborators consumed by one `storeFeedback`
run: the suggestion select, the ticket select, and the error results of the
status update (Step A) and the feedback-event insert (Step B). -/
structure RemoteEnv where
  suggestion : Option AIMessageSuggestion
  ticket : Option Ticket
  statusUpdateError : Option String
  feedbackInsertError : Option String
  deriving DecidableEq

instance : DecidableEq (Except FeedbackError TraceOutput) := fun a b =>
  match a, b with
  | .ok u, .ok v =>
    if h : u = v then .isTrue (by rw [h]) else .isFalse (by simp [h])
  | .ok _, .error _ => .isFalse (by simp)
  | .error _, .ok _ => .isFalse (by simp)
  | .error u, .error v =>
    if h : u = v then .isTrue (by rw [h]) else .isFalse (by simp [h])

/-- Result of a `storeFeedback` run: the remote mutations that succeeded,
in order, and either the raised error or the final trace output. -/
structure FeedbackRun where
  mutations : List RemoteMutation
  result : Except FeedbackError TraceOutput
  deriving DecidableEq

/-- The new status written by Step A: accepted for approval, rejected for
any other feedback type. -/
def newStatusFor (t : FeedbackType) : SuggestionStatus :=
  if t = .approval then .accepted else .rejected

/--
`storeFeedback` of the source, as a pure function of the remote outcomes.
Control flow in source order: require a user id; load the suggestion and
the ticket (absence raises); Step A updates the suggestion status (failure
aborts with nothing written); Step B inserts the feedback event with
`time_to_feedback` fixed to the string literal of the source (failure
raises but Step A stands); on success the trace output reports the derived
metrics, including the elapsed time between suggestion creation and `now`.
-/
def storeFeedback (env : RemoteEnv) (userId : Option String) (traceId : String)
    (now endTime : Nat) (feedback : AIFeedback) : FeedbackRun :=
  match userId with
  | none => { mutations := [], result := .error .noUserId }
  | some uid =>
    match env.suggestion with
    | none => { mutations := [], result := .error .suggestionNotFound }
    | some suggestion =>
      match env.ticket with
      | none => { mutations := [], result := .error .ticketNotFound }
      | some _ticket =>
        match env.statusUpdateError with
        | some e => { mutations := [], result := .error (.statusUpdateFailed e) }
        | none =>
          let statusMut : RemoteMutation :=
            .statusUpdate feedback.suggestion_id (newStatusFor feedback.feedback_type) now
          let row : FeedbackEventRow :=
            { suggestion_id := feedback.suggestion_id
              ticket_id := feedback.ticket_id
              agent_id := uid
              feedback_type := feedback.feedback_type
              feedback_reason := jsOrNull feedback.feedback_reason
              agent_response := jsOrNull feedback.agent_response
              time_to_feedback := "0 seconds"
              metadata := { base := feedback.metadata, trace_id := traceId }
              created_at := now
              updated_at := now }
          match env.feedbackInsertError with
          | some e => { mutations := [statusMut], result := .error (.feedbackInsertFailed e) }
          | none =>
            let feedbackProcessingTime : Int := (endTime : Int) - (now : Int)
            let timeToFeedback : Int := (now : Int) - (suggestion.created_at : Int)
            { mutations := [statusMut, .feedbackInsert row]
              result := .ok
                { processing_time_ms := feedbackProcessingTime
                  metrics :=
                    { time_to_feedback_ms := timeToFeedback
                      was_edited := suggestion.updated_at != suggestion.created_at
                      partUse := (feedback.metadata.map fun m => m.partUse).getD false
                      quality_score := if feedback.feedback_type = .approval then 1 else 0 }
                  new_status := newStatusFor feedback.feedback_type
                  edit_distance := feedback.agent_response.map fun r =>
                    calculateEditDistance suggestion.suggested_response r
                  response_length := suggestion.suggested_response.length
                  response_tokens := ((suggestion.metadata.bind fun m => m.tokens_total).getD 0)
                  total_interaction_time_ms := timeToFeedback + feedbackProcessingTime } }

/-! ### rejectSuggestion (OptimisticMutator) -/

/-- The feedback payload `rejectSuggestion` builds. -/
def rejectFeedback (ticketId sid reason : String) (additionalFeedback : Option String)
    (now : Nat) : AIFeedback :=
  { suggestion_id := sid
    ticket_id := ticketId
    feedback_type := .rejection
    feedback_reason := some reason
    agent_response := none
    metadata := additionalFeedback.map fun a =>
      { additional_feedback := some a, partUse := false }
    updated_at := now }

/--
`rejectSuggestion` of the source: optimistically filter the suggestion out
of the local store, then run `storeFeedback`; on failure, look the removed
entry up in the pre-call snapshot, append it back, and re-raise the error.
Returns the resulting local store and the re-raised error, if any.
-/
def rejectSuggestion (ticketId : String) (env : RemoteEnv) (userId : Option String)
    (traceId : String) (now endTime : Nat) (store : List SuggestionState)
    (sid reason : String) (additionalFeedback : Option String) :
    List SuggestionState × Option FeedbackError :=
  let removed := store.filter fun s => s.suggestion.id ≠ sid
  let run := storeFeedback env userId traceId now endTime
    (rejectFeedback ticketId sid reason additionalFeedback now)
  match run.result with
  | .ok _ => (removed, none)
  | .error e =>
    match store.find? (fun s => s.suggestion.id = sid) with
    | some failedSuggestion => (removed ++ [failedSuggestion], some e)
    | none => (removed, some e)

/-! ### Concrete sample data for witnesses and counterexamples -/

/-- A pending sample suggestion. -/
def sugg0 : AIMessageSuggestion :=
  { id := "s1"
    ticket_id := "t1"
    suggested_response := "hello there"
    status := .pending
    metadata := none
    created_at := 100
    updated_at := 100 }

/-- The same record after a terminal (accepted) update. -/
def sugg0Accepted : AIMessageSuggestion :=
  { sugg0 with status := .accepted, updated_at := 200 }

/-- A later non-terminal (pending) update of the same record. -/
def sugg0Again : AIMessageSuggestion :=
  { sugg0 with suggested_response := "hello again", updated_at := 300 }

/-- A second, unrelated pending suggestion. -/
def sugg2 : AIMessageSuggestion :=
  { id := "s2"
    ticket_id := "t1"
    suggested_response := "other"
    status := .pending
    metadata := none
    created_at := 150
    updated_at := 150 }

/-- Local store entry wrapping `sugg0`. -/
def state0 : SuggestionState :=
  { suggestion := sugg0, status := .success, error := none }

/-- Local store entry wrapping `sugg2`. -/
def state2 : SuggestionState :=
  { suggestion := sugg2, status := .success, error := none }

/-- A sample ticket with no messages. -/
def ticket0 : Ticket :=
  { id := "t1", title := "T", description := "D", priority := "low", messages := [] }

/-- Remote environment in which every remote call succeeds. -/
def envOk : RemoteEnv :=
  { suggestion := some sugg0
    ticket := some ticket0
    statusUpdateError := none
    feedbackInsertError := none }

/-- Remote environment in which Step A (the status update) fails. -/
def envStepAFail : RemoteEnv :=
  { envOk with statusUpdateError := some "update failed" }

/-- Remote environment in which Step B (the feedback-event insert) fails. -/
def envStepBFail : RemoteEnv :=
  { envOk with feedbackInsertError := some "insert failed" }

/-- Remote environment whose stored suggestion is already accepted. -/
def envAlreadyAccepted : RemoteEnv :=
  { envOk with suggestion := some sugg0Accepted }

/-- A rejection submission carrying no feedback reason. -/
def fbRejectionNoReason : AIFeedback :=
  { suggestion_id := "s1"
    ticket_id := "t1"
    feedback_type := .rejection
    feedback_reason := none
    agent_response := none
    metadata := none
    updated_at := 500 }

/-- A rejection submission carrying a canonical reason. -/
def fbRejection : AIFeedback :=
  { suggestion_id := "s1"
    ticket_id := "t1"
    feedback_type := .rejection
    feedback_reason := some "too generic"
    agent_response := none
    metadata := none
    updated_at := 500 }

/-- An approval submission, as built by `acceptSuggestion`. -/
def fbApproval : AIFeedback :=
  { suggestion_id := "s1"
    ticket_id := "t1"
    feedback_type := .approval
    feedback_reason := none
    agent_response := none
    metadata := none
    updated_at := 5000 }

theorem lev_nil (ys : List Char) : lev [] ys = ys.length := rfl

theorem lev_cons_nil (x : Char) (xs : List Char) :
    lev (x :: xs) [] = xs.length + 1 := rfl

theorem lev_cons_cons (x y : Char) (xs ys : List Char) :
    lev (x :: xs) (y :: ys) =
      if x = y then lev xs ys
      else 1 + min (lev xs (y :: ys)) (min (lev (x :: xs) ys) (lev xs ys)) := rfl

theorem lev_nil_right (xs : List Char) : lev xs [] = xs.length := by
  cases xs <;> rfl

/--
Adjacent-cell bounds for `lev`: consing a character onto either argument
changes the distance by at most one, in both directions.  Proved by
induction on a bound for the total length.
-/
theorem lev_bounds : ∀ (k : Nat) (xs ys : List Char), xs.length + ys.length ≤ k →
    (∀ x, lev (x :: xs) ys ≤ lev xs ys + 1) ∧
    (∀ y, lev xs (y :: ys) ≤ lev xs ys + 1) ∧
    (∀ y, lev xs ys ≤ lev xs (y :: ys) + 1) ∧
    (∀ x, lev xs ys ≤ lev (x :: xs) ys + 1) := by
  intro k
  induction k with
  | zero =>
    intro xs ys h
    match xs, ys with
    | [], [] =>
      refine ⟨fun x => ?_, fun y => ?_, fun y => ?_, fun x => ?_⟩ <;>
        simp [lev_nil, lev_cons_nil, lev_nil_right]
    | x :: xs, _ => simp at h
    | [], y :: ys => simp at h
  | succ k IH =>
    intro xs ys h
    refine ⟨fun x => ?_, fun y => ?_, fun y => ?_, fun x => ?_⟩
    · -- lev (x :: xs) ys ≤ lev xs ys + 1
      match ys with
      | [] => simp [lev_cons_nil, lev_nil_right]
      | y :: ys' =>
        rw [lev_cons_cons]
        by_cases hxy : x = y
        · rw [if_pos hxy]
          exact (IH xs ys' (by simp at h ⊢; omega)).2.2.1 y
        · rw [if_neg hxy]
          omega
    · -- lev xs (y :: ys) ≤ lev xs ys + 1
      match xs with
      | [] => simp [lev_nil]
      | x :: xs' =>
        rw [lev_cons_cons]
        by_cases hxy : x = y
        · rw [if_pos hxy]
          exact (IH xs' ys (by simp at h ⊢; omega)).2.2.2 x
        · rw [if_neg hxy]
          omega
    · -- lev xs ys ≤ lev xs (y :: ys) + 1
      match xs with
      | [] => simp [lev_nil]; omega
      | x :: xs' =>
        rw [lev_cons_cons]
        by_cases hxy : x = y
        · rw [if_pos hxy]
          exact (IH xs' ys (by simp at h ⊢; omega)).1 x
        · rw [if_neg hxy]
          have hBC : lev (x :: xs') ys ≤ lev xs' ys + 1 :=
            (IH xs' ys (by simp at h ⊢; omega)).1 x
          have hCA : lev xs' ys ≤ lev xs' (y :: ys) + 1 :=
            (IH xs' ys (by simp at h ⊢; omega)).2.2.1 y
          omega
    · -- lev xs ys ≤ lev (x :: xs) ys + 1
      match ys with
      | [] => simp [lev_cons_nil, lev_nil_right]; omega
      | y :: ys' =>
        rw [lev_cons_cons]
        by_cases hxy : x = y
        · rw [if_pos hxy]
          exact (IH xs ys' (by simp at h ⊢; omega)).2.1 y
        · rw [if_neg hxy]
          have hAC : lev xs (y :: ys') ≤ lev xs ys' + 1 :=
            (IH xs ys' (by simp at h ⊢; omega)).2.1 y
          have hCB : lev xs ys' ≤ lev (x :: xs) ys' + 1 :=
            (IH xs ys' (by simp at h ⊢; omega)).2.2.2 x
          omega

theorem lev_cons_left_le (x : Char) (xs ys : List Char) :
    lev (x :: xs) ys ≤ lev xs ys + 1 :=
  (lev_bounds (xs.length + ys.length) xs ys le_rfl).1 x

theorem lev_cons_right_le (y : Char) (xs ys : List Char) :
    lev xs (y :: ys) ≤ lev xs ys + 1 :=
  (lev_bounds (xs.length + ys.length) xs ys le_rfl).2.1 y

theorem edits_nil_left : ∀ ys : List Char, Edits ys.length [] ys
  | [] => .nil
  | y :: ys => .ins y (edits_nil_left ys)

theorem edits_nil_right : ∀ xs : List Char, Edits xs.length xs []
  | [] => .nil
  | x :: xs => .del x (edits_nil_right xs)

/-- Achievability: `lev xs ys` edit operations suffice to turn `xs` into `ys`. -/
theorem edits_lev : ∀ xs ys : List Char, Edits (lev xs ys) xs ys := by
  intro xs
  induction xs with
  | nil =>
    intro ys
    rw [lev_nil]
    exact edits_nil_left ys
  | cons x xs ihx =>
    intro ys
    induction ys with
    | nil =>
      rw [lev_cons_nil]
      exact edits_nil_right (x :: xs)
    | cons y ys ihy =>
      rw [lev_cons_cons]
      by_cases hxy : x = y
      · rw [if_pos hxy]
        subst hxy
        exact .keep x (ihx ys)
      · rw [if_neg hxy]
        have hmin : min (lev xs (y :: ys)) (min (lev (x :: xs) ys) (lev xs ys)) =
              lev xs (y :: ys) ∨
            min (lev xs (y :: ys)) (min (lev (x :: xs) ys) (lev xs ys)) =
              lev (x :: xs) ys ∨
            min (lev xs (y :: ys)) (min (lev (x :: xs) ys) (lev xs ys)) =
              lev xs ys := by omega
        rcases hmin with hm | hm | hm <;> rw [hm, Nat.add_comm]
        · exact .del x (ihx (y :: ys))
        · exact .ins y ihy
        · exact .subst x y (ihx ys)

/-- Minimality: no edit script is shorter than `lev`. -/
theorem lev_le_of_edits : ∀ {n : Nat} {xs ys : List Char},
    Edits n xs ys → lev xs ys ≤ n := by
  intro n xs ys h
  induction h with
  | nil => simp [lev_nil]
  | keep c _ ih =>
    rw [lev_cons_cons, if_pos rfl]
    exact ih
  | subst a b _ ih =>
    rw [lev_cons_cons]
    by_cases hab : a = b
    · rw [if_pos hab]; omega
    · rw [if_neg hab]; omega
  | @del m as bs a _ ih =>
    have := lev_cons_left_le a as bs
    omega
  | @ins m as bs b _ ih =>
    have := lev_cons_right_le b as bs
    omega

theorem Edits.snoc_keep {n : Nat} {xs ys : List Char} (c : Char)
    (h : Edits n xs ys) : Edits n (xs ++ [c]) (ys ++ [c]) := by
  induction h with
  | nil => exact .keep c .nil
  | keep d _ ih => exact .keep d ih
  | subst a b _ ih => exact .subst a b ih
  | del a _ ih => exact .del a ih
  | ins b _ ih => exact .ins b ih

theorem Edits.snoc_subst {n : Nat} {xs ys : List Char} (a b : Char)
    (h : Edits n xs ys) : Edits (n + 1) (xs ++ [a]) (ys ++ [b]) := by
  induction h with
  | nil => exact .subst a b .nil
  | keep d _ ih => exact .keep d ih
  | subst u v _ ih => exact .subst u v ih
  | del u _ ih => exact .del u ih
  | ins v _ ih => exact .ins v ih

theorem Edits.snoc_del {n : Nat} {xs ys : List Char} (a : Char)
    (h : Edits n xs ys) : Edits (n + 1) (xs ++ [a]) ys := by
  induction h with
  | nil => exact .del a .nil
  | keep d _ ih => exact .keep d ih
  | subst u v _ ih => exact .subst u v ih
  | del u _ ih => exact .del u ih
  | ins v _ ih => exact .ins v ih

theorem Edits.snoc_ins {n : Nat} {xs ys : List Char} (b : Char)
    (h : Edits n xs ys) : Edits (n + 1) xs (ys ++ [b]) := by
  induction h with
  | nil => exact .ins b .nil
  | keep d _ ih => exact .keep d ih
  | subst u v _ ih => exact .subst u v ih
  | del u _ ih => exact .del u ih
  | ins v _ ih => exact .ins v ih

/-- Edit scripts transport along simultaneous reversal of both lists. -/
theorem Edits.rev {n : Nat} {xs ys : List Char}
    (h : Edits n xs ys) : Edits n xs.reverse ys.reverse := by
  induction h with
  | nil => exact .nil
  | keep c _ ih => simpa using ih.snoc_keep c
  | subst a b _ ih => simpa using ih.snoc_subst a b
  | del a _ ih => simpa using ih.snoc_del a
  | ins b _ ih => simpa using ih.snoc_ins b

theorem dpCell_zero (s1 s2 : List Char) (j : Nat) : dpCell s1 s2 0 j = j := rfl

theorem dpCell_succ_zero (s1 s2 : List Char) (i : Nat) :
    dpCell s1 s2 (i + 1) 0 = i + 1 := rfl

theorem dpCell_succ_succ (s1 s2 : List Char) (i j : Nat) :
    dpCell s1 s2 (i + 1) (j + 1) =
      if s1.get? i = s2.get? j then dpCell s1 s2 i j
      else 1 + min (dpCell s1 s2 i (j + 1))
        (min (dpCell s1 s2 (i + 1) j) (dpCell s1 s2 i j)) := rfl

theorem reverse_take_succ (l : List Char) (i : Nat) (h : i < l.length) :
    (l.take (i + 1)).reverse = l.get ⟨i, h⟩ :: (l.take i).reverse := by
  rw [List.take_succ]
  simp [List.getElem?_eq_getElem h, List.get_eq_getElem]

/--
Each cell of the dynamic-programming table equals the Levenshtein distance
of the corresponding prefixes (reversed, since the table recurrence
compares the last characters of the prefixes while `lev` compares heads).
-/
theorem dpCell_eq_lev (l1 l2 : List Char) :
    ∀ i, i ≤ l1.length → ∀ j, j ≤ l2.length →
      dpCell l1 l2 i j = lev (l1.take i).reverse (l2.take j).reverse := by
  intro i
  induction i with
  | zero =>
    intro _ j hj
    rw [dpCell_zero]
    simp [lev_nil, Nat.min_eq_left hj]
  | succ i ihi =>
    intro hi j
    induction j with
    | zero =>
      intro _
      rw [dpCell_succ_zero]
      simp [lev_nil_right, Nat.min_eq_left hi]
    | succ j ihj =>
      intro hj
      have hi' : i < l1.length := by omega
      have hj' : j < l2.length := by omega
      have ha : l1.get? i = some (l1.get ⟨i, hi'⟩) := List.get?_eq_get hi'
      have hb : l2.get? j = some (l2.get ⟨j, hj'⟩) := List.get?_eq_get hj'
      rw [dpCell_succ_succ, ha, hb,
        reverse_take_succ l1 i hi', reverse_take_succ l2 j hj', lev_cons_cons]
      by_cases hab : l1.get ⟨i, hi'⟩ = l2.get ⟨j, hj'⟩
      · rw [if_pos (by rw [hab]), if_pos hab]
        exact ihi (by omega) j (by omega)
      · rw [if_neg (by simpa using hab), if_neg hab]
        rw [ihi (by omega) (j + 1) hj, ihi (by omega) j (by omega),
          ihj (by omega), reverse_take_succ l1 i hi', reverse_take_succ l2 j hj']

theorem string_length_data (s : String) : s.length = s.data.length := by
  cases s
  rfl

/-- `calculateEditDistance` equals the head-recursive Levenshtein distance
applied to the reversed character lists. -/
theorem calculateEditDistance_eq_lev (s t : String) :
    calculateEditDistance s t = lev s.data.reverse t.data.reverse := by
  unfold calculateEditDistance
  rw [string_length_data s, string_length_data t,
    dpCell_eq_lev s.data t.data s.data.length le_rfl t.data.length le_rfl,
    List.take_length, List.take_length]

/-- Mapping the non-terminal-update transformation over a store that holds
no entry with the incoming record's id changes nothing. -/
theorem map_update_id_of_absent (r : AIMessageSuggestion) :
    ∀ store : List SuggestionState, (∀ s ∈ store, s.suggestion.id ≠ r.id) →
      (store.map fun s =>
        if s.suggestion.id = r.id then { s with suggestion := r } else s) = store
  | [], _ => rfl
  | s :: rest, h => by
    rw [List.map_cons, if_neg (h s (by simp)),
      map_update_id_of_absent r rest fun x hx => h x (by simp [hx])]

/-! ### Claim theorems -/

/--
C7: `calculateEditDistance` computes the Levenshtein distance between its
two string arguments: for every pair of strings it both is achieved by some
script of single-character insert/delete/substitute operations and is a
lower bound for every such script; in particular the distance from the
empty string to the empty string is 0, from the empty string to any string
is that string's length, from "kitten" to "sitting" is 3, and from "abc" to
itself is 0.
-/
theorem calculateEditDistance_correct :
    (∀ s t : String,
      Edits (calculateEditDistance s t) s.data t.data ∧
      ∀ n, Edits n s.data t.data → calculateEditDistance s t ≤ n) ∧
    calculateEditDistance "" "" = 0 ∧
    (∀ s : String, calculateEditDistance "" s = s.length) ∧
    calculateEditDistance "kitten" "sitting" = 3 ∧
    calculateEditDistance "abc" "abc" = 0 := by
  refine ⟨fun s t => ⟨?_, fun n hn => ?_⟩, by decide, fun s => rfl, by decide, by decide⟩
  · rw [calculateEditDistance_eq_lev]
    have h := (edits_lev s.data.reverse t.data.reverse).rev
    simpa using h
  · rw [calculateEditDistance_eq_lev]
    exact lev_le_of_edits hn.rev

/--
Witness for C7 at the concrete pair "kitten"/"sitting": three edit
operations suffice, and no script does better.
-/
theorem calculateEditDistance_correct_witness :
    Edits 3 "kitten".data "sitting".data ∧
    calculateEditDistance "kitten" "sitting" ≤ 3 := by
  have h := calculateEditDistance_correct
  have h1 : Edits (calculateEditDistance "kitten" "sitting") "kitten".data "sitting".data :=
    (h.1 "kitten" "sitting").1
  have h3 : calculateEditDistance "kitten" "sitting" = 3 := h.2.2.2.1
  rw [h3] at h1
  exact ⟨h1, (h.1 "kitten" "sitting").2 3 h1⟩

/--
C8: applying a change-feed insert event whose record's identifier is
already present leaves the store unchanged (literally the same list, hence
same size, content and order); applying it when the identifier is absent
appends the record at the end with fetch status success.
-/
theorem applyInsert_spec (store : List SuggestionState) (r : AIMessageSuggestion) :
    ((∃ s ∈ store, s.suggestion.id = r.id) → applyInsert store r = store) ∧
    ((∀ s ∈ store, s.suggestion.id ≠ r.id) →
      applyInsert store r =
        store ++ [{ suggestion := r, status := .success, error := none }]) := by
  constructor
  · intro h
    obtain ⟨s, hs, hid⟩ := h
    unfold applyInsert
    rw [if_pos (by rw [List.any_eq_true]; exact ⟨s, hs, by simp [hid]⟩)]
  · intro h
    unfold applyInsert
    rw [if_neg]
    intro hx
    rw [List.any_eq_true] at hx
    obtain ⟨s, hs, hid⟩ := hx
    exact h s hs (by simpa using hid)

/-- Witness for C8: a duplicate insert is discarded, a fresh insert is
appended at the end. -/
theorem applyInsert_spec_witness :
    applyInsert [state0] sugg0Again = [state0] ∧
    applyInsert [state0] sugg2 =
      [state0] ++ [{ suggestion := sugg2, status := .success, error := none }] :=
  ⟨(applyInsert_spec [state0] sugg0Again).1 ⟨state0, by simp, by decide⟩,
   (applyInsert_spec [state0] sugg2).2 (by decide)⟩

/--
C9: after applying a change-feed update event whose record's status is
accepted or rejected, the store contains no suggestion with that record's
identifier, regardless of prior presence or state.
-/
theorem applyUpdate_terminal_removes (store : List SuggestionState)
    (r : AIMessageSuggestion) (h : r.status = .accepted ∨ r.status = .rejected) :
    ∀ s ∈ applyUpdate store r, s.suggestion.id ≠ r.id := by
  intro s hs
  unfold applyUpdate at hs
  rw [if_pos h] at hs
  simpa using (List.mem_filter.mp hs).2

/-- Witness for C9: a terminal update removes the id from a two-element
store in which it is present. -/
theorem applyUpdate_terminal_removes_witness :
    (sugg0Accepted.status = .accepted ∨ sugg0Accepted.status = .rejected) ∧
    ∀ s ∈ applyUpdate [state0, state2] sugg0Accepted, s.suggestion.id ≠ sugg0Accepted.id :=
  ⟨Or.inl rfl, applyUpdate_terminal_removes [state0, state2] sugg0Accepted (Or.inl rfl)⟩

/--
C1 counterexample: the claim that a non-terminal update re-inserts an
absent id fails.  Starting from a store holding the pending record, a
terminal update removes it; the subsequent non-terminal update for the same
id leaves the store empty — the record is not re-inserted.
-/
theorem applyUpdate_no_resurrection_cex :
    (sugg0Again.status ≠ .accepted ∧ sugg0Again.status ≠ .rejected) ∧
    applyUpdate [state0] sugg0Accepted = [] ∧
    applyUpdate (applyUpdate [state0] sugg0Accepted) sugg0Again = [] ∧
    ¬ ∃ s ∈ applyUpdate (applyUpdate [state0] sugg0Accepted) sugg0Again,
        s.suggestion.id = sugg0Again.id := by
  decide

/--
C1 (amended): for every change-feed update event whose record's status is
not accepted and not rejected, applied to a store that does not contain a
suggestion with that record's identifier, the reconciler leaves the store
unchanged — the record is not inserted; in particular, after a terminal
update removed an id, a subsequent non-terminal update for the same id does
not re-insert it.
-/
theorem applyUpdate_nonterminal_absent_unchanged (store : List SuggestionState)
    (r : AIMessageSuggestion) (h1 : r.status ≠ .accepted) (h2 : r.status ≠ .rejected)
    (habs : ∀ s ∈ store, s.suggestion.id ≠ r.id) :
    applyUpdate store r = store := by
  unfold applyUpdate
  rw [if_neg (not_or.mpr ⟨h1, h2⟩), map_update_id_of_absent r store habs]

/-- Witness for amended C1: a pending update for an id that a terminal
update just removed leaves the store unchanged. -/
theorem applyUpdate_nonterminal_absent_unchanged_witness :
    sugg0Again.status ≠ .accepted ∧ sugg0Again.status ≠ .rejected ∧
    (∀ s ∈ [state2], s.suggestion.id ≠ sugg0Again.id) ∧
    applyUpdate [state2] sugg0Again = [state2] :=
  ⟨by decide, by decide, by decide,
   applyUpdate_nonterminal_absent_unchanged [state2] sugg0Again
     (by decide) (by decide) (by decide)⟩

/--
C2 counterexample: a rejection submission without a feedback reason is not
rejected by any validation: with the user, suggestion and ticket available
and both remote steps succeeding, `storeFeedback` completes successfully
and performs both remote mutations.
-/
theorem storeFeedback_no_reason_not_validated_cex :
    fbRejectionNoReason.feedback_type ≠ .approval ∧
    fbRejectionNoReason.feedback_reason = none ∧
    (storeFeedback envOk (some "agent1") "tr1" 1000 1005 fbRejectionNoReason).result.isOk
      = true ∧
    (storeFeedback envOk (some "agent1") "tr1" 1000 1005 fbRejectionNoReason).mutations
      ≠ [] := by
  decide

/--
C2 (amended): `storeFeedback` performs no feedback-reason validation: for
every non-approval submission whose reason is absent, when the user id,
suggestion and ticket are available and both remote steps succeed, the
operation completes successfully, performs the status update, and inserts
the feedback event with a null feedback reason (silently defaulted rather
than rejected).
-/
theorem storeFeedback_no_reason_proceeds (env : RemoteEnv) (uid traceId : String)
    (now endTime : Nat) (fb : AIFeedback) (sugg : AIMessageSuggestion) (tick : Ticket)
    (hs : env.suggestion = some sugg) (ht : env.ticket = some tick)
    (hA : env.statusUpdateError = none) (hB : env.feedbackInsertError = none)
    (hty : fb.feedback_type ≠ .approval) (hr : fb.feedback_reason = none) :
    (storeFeedback env (some uid) traceId now endTime fb).result.isOk = true ∧
    ∃ row : FeedbackEventRow,
      (storeFeedback env (some uid) traceId now endTime fb).mutations =
        [.statusUpdate fb.suggestion_id .rejected now, .feedbackInsert row] ∧
      row.feedback_reason = none := by
  obtain ⟨es, et, eA, eB⟩ := env
  simp only at hs ht hA hB
  subst hs; subst ht; subst hA; subst hB
  have hst : newStatusFor fb.feedback_type = .rejected := by
    unfold newStatusFor
    rw [if_neg hty]
  refine ⟨rfl,
    { suggestion_id := fb.suggestion_id
      ticket_id := fb.ticket_id
      agent_id := uid
      feedback_type := fb.feedback_type
      feedback_reason := jsOrNull fb.feedback_reason
      agent_response := jsOrNull fb.agent_response
      time_to_feedback := "0 seconds"
      metadata := { base := fb.metadata, trace_id := traceId }
      created_at := now
      updated_at := now },
    ?_, ?_⟩
  · rw [← hst]
    rfl
  · rw [hr]
    rfl

/-- Witness for amended C2 at a concrete reason-less rejection. -/
theorem storeFeedback_no_reason_proceeds_witness :
    (storeFeedback envOk (some "agent2") "tr5" 2000 2004 fbRejectionNoReason).result.isOk
      = true ∧
    ∃ row : FeedbackEventRow,
      (storeFeedback envOk (some "agent2") "tr5" 2000 2004 fbRejectionNoReason).mutations =
        [.statusUpdate fbRejectionNoReason.suggestion_id .rejected 2000,
          .feedbackInsert row] ∧
      row.feedback_reason = none :=
  storeFeedback_no_reason_proceeds envOk "agent2" "tr5" 2000 2004 fbRejectionNoReason
    sugg0 ticket0 rfl rfl rfl rfl (by decide) rfl

/--
C4 counterexample: applied to a suggestion that is already accepted, a
rejection-type feedback run performs the accepted→rejected status update,
so a transition other than pending→accepted / pending→rejected is
performed.
-/
theorem storeFeedback_terminal_transition_cex :
    sugg0Accepted.status = .accepted ∧
    RemoteMutation.statusUpdate "s1" .rejected 1000 ∈
      (storeFeedback envAlreadyAccepted (some "agent1") "tr1" 1000 1005 fbRejection).mutations := by
  decide

/--
C4 (amended): `storeFeedback` derives the new status from the feedback type
alone — accepted for approval, rejected for anything else — and issues the
status update unconditionally, whatever the loaded suggestion's current
status; in particular transitions out of accepted or rejected are
performed rather than refused.
-/
theorem storeFeedback_status_unconditional (env : RemoteEnv) (uid traceId : String)
    (now endTime : Nat) (fb : AIFeedback) (sugg : AIMessageSuggestion) (tick : Ticket)
    (hs : env.suggestion = some sugg) (ht : env.ticket = some tick)
    (hA : env.statusUpdateError = none) :
    (storeFeedback env (some uid) traceId now endTime fb).mutations.head? =
      some (.statusUpdate fb.suggestion_id (newStatusFor fb.feedback_type) now) := by
  obtain ⟨es, et, eA, eB⟩ := env
  simp only at hs ht hA
  subst hs; subst ht; subst hA
  cases eB <;> rfl

/-- Witness for amended C4 on an already accepted suggestion. -/
theorem storeFeedback_status_unconditional_witness :
    (storeFeedback envAlreadyAccepted (some "agent1") "tr2" 1000 1005 fbRejection).mutations.head? =
      some (.statusUpdate fbRejection.suggestion_id (newStatusFor fbRejection.feedback_type) 1000) :=
  storeFeedback_status_unconditional envAlreadyAccepted "agent1" "tr2" 1000 1005
    fbRejection sugg0Accepted ticket0 rfl rfl rfl

/--
C5: when Step A (the status update) succeeds and Step B (the feedback-event
insert) fails, `storeFeedback` reports the insert error to the caller and
the Step A change is not rolled back: the run's remote mutations are
exactly the status update, with no compensating write.
-/
theorem storeFeedback_insert_failure_no_rollback (env : RemoteEnv) (uid traceId : String)
    (now endTime : Nat) (fb : AIFeedback) (sugg : AIMessageSuggestion) (tick : Ticket)
    (e : String) (hs : env.suggestion = some sugg) (ht : env.ticket = some tick)
    (hA : env.statusUpdateError = none) (hB : env.feedbackInsertError = some e) :
    (storeFeedback env (some uid) traceId now endTime fb).result =
      .error (.feedbackInsertFailed e) ∧
    (storeFeedback env (some uid) traceId now endTime fb).mutations =
      [.statusUpdate fb.suggestion_id (newStatusFor fb.feedback_type) now] := by
  obtain ⟨es, et, eA, eB⟩ := env
  simp only at hs ht hA hB
  subst hs; subst ht; subst hA; subst hB
  exact ⟨rfl, rfl⟩

/-- Witness for C5 with a concrete failing insert. -/
theorem storeFeedback_insert_failure_no_rollback_witness :
    (storeFeedback envStepBFail (some "agent1") "tr6" 1000 1005 fbRejection).result =
      .error (.feedbackInsertFailed "insert failed") ∧
    (storeFeedback envStepBFail (some "agent1") "tr6" 1000 1005 fbRejection).mutations =
      [.statusUpdate fbRejection.suggestion_id (newStatusFor fbRejection.feedback_type) 1000] :=
  storeFeedback_insert_failure_no_rollback envStepBFail "agent1" "tr6" 1000 1005
    fbRejection sugg0 ticket0 "insert failed" rfl rfl rfl rfl

/--
C6: when Step A (the status update) fails, the whole operation aborts: the
error is re-raised as a status-update failure and no remote mutation at all
— in particular no feedback-event insert — has been performed.
-/
theorem storeFeedback_status_failure_aborts (env : RemoteEnv) (uid traceId : String)
    (now endTime : Nat) (fb : AIFeedback) (sugg : AIMessageSuggestion) (tick : Ticket)
    (e : String) (hs : env.suggestion = some sugg) (ht : env.ticket = some tick)
    (hA : env.statusUpdateError = some e) :
    (storeFeedback env (some uid) traceId now endTime fb).result =
      .error (.statusUpdateFailed e) ∧
    (storeFeedback env (some uid) traceId now endTime fb).mutations = [] := by
  obtain ⟨es, et, eA, eB⟩ := env
  simp only at hs ht hA
  subst hs; subst ht; subst hA
  exact ⟨rfl, rfl⟩

/-- Witness for C6 with a concrete failing status update. -/
theorem storeFeedback_status_failure_aborts_witness :
    (storeFeedback envStepAFail (some "agent1") "tr7" 1000 1005 fbRejection).result =
      .error (.statusUpdateFailed "update failed") ∧
    (storeFeedback envStepAFail (some "agent1") "tr7" 1000 1005 fbRejection).mutations = [] :=
  storeFeedback_status_failure_aborts envStepAFail "agent1" "tr7" 1000 1005
    fbRejection sugg0 ticket0 "update failed" rfl rfl rfl

/--
C10: every successful feedback-recording run inserts the feedback event
with its time_to_feedback field equal to the constant string "0 seconds",
regardless of the actual elapsed time, while the actual elapsed time
between suggestion creation and the feedback appears in the trace output's
metrics.
-/
theorem storeFeedback_time_to_feedback_constant (env : RemoteEnv) (uid traceId : String)
    (now endTime : Nat) (fb : AIFeedback) (sugg : AIMessageSuggestion) (tick : Ticket)
    (hs : env.suggestion = some sugg) (ht : env.ticket = some tick)
    (hA : env.statusUpdateError = none) (hB : env.feedbackInsertError = none) :
    ∃ (row : FeedbackEventRow) (out : TraceOutput),
      (storeFeedback env (some uid) traceId now endTime fb).mutations =
        [.statusUpdate fb.suggestion_id (newStatusFor fb.feedback_type) now,
          .feedbackInsert row] ∧
      row.time_to_feedback = "0 seconds" ∧
      (storeFeedback env (some uid) traceId now endTime fb).result = .ok out ∧
      out.metrics.time_to_feedback_ms = (now : Int) - (sugg.created_at : Int) := by
  obtain ⟨es, et, eA, eB⟩ := env
  simp only at hs ht hA hB
  subst hs; subst ht; subst hA; subst hB
  exact ⟨_, _, rfl, rfl, rfl, rfl⟩

/-- Witness for C10 with a concrete run whose actual elapsed time is 4900
milliseconds while the stored field still reads "0 seconds". -/
theorem storeFeedback_time_to_feedback_constant_witness :
    ∃ (row : FeedbackEventRow) (out : TraceOutput),
      (storeFeedback envOk (some "agent1") "tr3" 5000 5010 fbApproval).mutations =
        [.statusUpdate fbApproval.suggestion_id (newStatusFor fbApproval.feedback_type) 5000,
          .feedbackInsert row] ∧
      row.time_to_feedback = "0 seconds" ∧
      (storeFeedback envOk (some "agent1") "tr3" 5000 5010 fbApproval).result = .ok out ∧
      out.metrics.time_to_feedback_ms = (5000 : Int) - (sugg0.created_at : Int) :=
  storeFeedback_time_to_feedback_constant envOk "agent1" "tr3" 5000 5010 fbApproval
    sugg0 ticket0 rfl rfl rfl rfl

/--
C3: for a suggestion present in the local store, if reject is invoked for
its id and the remote feedback-recording call fails, the resulting store
again contains that suggestion with its original content and the error is
re-raised to the caller; if the remote call succeeds, the optimistic local
removal stands.
-/
theorem rejectSuggestion_rollback (ticketId : String) (env : RemoteEnv)
    (userId : Option String) (traceId : String) (now endTime : Nat)
    (store : List SuggestionState) (sid reason : String) (extra : Option String)
    (s0 : SuggestionState)
    (hfind : store.find? (fun s => s.suggestion.id = sid) = some s0) :
    (∀ e, (storeFeedback env userId traceId now endTime
        (rejectFeedback ticketId sid reason extra now)).result = .error e →
      s0 ∈ (rejectSuggestion ticketId env userId traceId now endTime store sid reason extra).1 ∧
      (rejectSuggestion ticketId env userId traceId now endTime store sid reason extra).2
        = some e) ∧
    (∀ out, (storeFeedback env userId traceId now endTime
        (rejectFeedback ticketId sid reason extra now)).result = .ok out →
      (rejectSuggestion ticketId env userId traceId now endTime store sid reason extra).1
        = store.filter (fun s => s.suggestion.id ≠ sid) ∧
      (rejectSuggestion ticketId env userId traceId now endTime store sid reason extra).2
        = none) := by
  constructor
  · intro e he
    simp only [rejectSuggestion, he, hfind]
    simp
  · intro out hout
    simp only [rejectSuggestion, hout]
    simp

/-- Witness for C3: with Step A failing remotely, the optimistically
removed entry is restored and the error re-raised. -/
theorem rejectSuggestion_rollback_witness :
    state0 ∈ (rejectSuggestion "t1" envStepAFail (some "agent1") "tr4" 800 810
      [state0, state2] "s1" "too generic" none).1 ∧
    (rejectSuggestion "t1" envStepAFail (some "agent1") "tr4" 800 810
      [state0, state2] "s1" "too generic" none).2 =
      some (.statusUpdateFailed "update failed") :=
  (rejectSuggestion_rollback "t1" envStepAFail (some "agent1") "tr4" 800 810
    [state0, state2] "s1" "too generic" none state0 (by decide)).1
    (.statusUpdateFailed "update failed") (by decide)

end AutoCRM
